import Mathlib

/-!
Shallow embedding of the `housing-price-dashboard` backend (`backend/app.py`).

Numbers: Python floats are modelled as exact rationals where the source only
uses field arithmetic, and as reals where a square root occurs (np.std and the
derived skewness).  Division is total on ℚ and ℝ with x / 0 = 0; the source
never divides by zero on the inputs the theorems use.

Dates: pandas datetimes are modelled as ISO `YYYY-MM-DD` strings.  Comparing
the datetime column against a query string first coerces the string to a
timestamp: a calendar-valid `YYYY-MM-DD` string then compares chronologically,
which on the ISO date column is lexicographic comparison, while a string that
does not parse makes pandas raise a TypeError, modelled as the error branch of
`filterDates` (the handlers convert it to their 500 envelope).

Dict state: the module-level dict caches are modelled as association lists with
`alookup`; assignment conses the new binding in front, which gives the same
lookup semantics as dict overwrite.
-/

namespace HousingDashboard

/-- Dictionary lookup on an association list, modelling Python dict access. -/
def alookup {κ ν : Type} [DecidableEq κ] (k : κ) : List (κ × ν) → Option ν
  | [] => none
  | (k', v) :: t => if k = k' then some v else alookup k t

/-- Python slice `values[-n:]`. -/
def takeLast {α : Type} (n : Nat) (l : List α) : List α := l.drop (l.length - n)

/-- Arithmetic mean, `np.mean`; the empty list gives 0 (the source never takes
a mean of an empty vector on the paths modelled here). -/
def qmean (l : List ℚ) : ℚ := l.sum / l.length

/-- Population variance `mean((x - mean)^2)`, the square of `np.std`. -/
def qvariance (l : List ℚ) : ℚ := qmean (l.map (fun x => (x - qmean l) ^ 2))

/-- One row of the long-format frame produced by `load_data` after melting and
missing-value filling (ingestion upstream of line 70 of app.py is the input
contract: prices are already total). -/
structure Row where
  regionID : String
  sizeRank : Int
  regionName : String
  regionType : String
  stateName : String
  date : String
  price : ℚ
deriving DecidableEq, Repr

/-- Lexicographic comparison of character lists by code point, the comparison
Python and pandas use on strings; on ISO dates it is chronological order. -/
def charListLt : List Char → List Char → Bool
  | [], [] => false
  | [], _ :: _ => true
  | _ :: _, [] => false
  | a :: as, b :: bs => if a < b then true else if b < a then false else charListLt as bs

/-- Strict lexicographic order on strings. -/
def strLt (a b : String) : Bool := charListLt a.toList b.toList

/-- Non-strict lexicographic order on strings. -/
def strLe (a b : String) : Bool := strLt a b || a == b

/-- Insert an element into a list sorted by the boolean order le. -/
def insertBy {α : Type} (le : α → α → Bool) (a : α) : List α → List α
  | [] => [a]
  | b :: t => if le a b then a :: b :: t else b :: insertBy le a t

/-- Stable insertion sort by the boolean order le, modelling df.sort_values
(rows with distinct keys, which the store invariant guarantees, make the sort
kind irrelevant). -/
def sortBy {α : Type} (le : α → α → Bool) : List α → List α
  | [] => []
  | a :: t => insertBy le a (sortBy le t)

/-- melted.sort_values([RegionID, Date]) at app.py line 70. -/
def sortByRegionDate (l : List Row) : List Row :=
  sortBy (fun a b => strLt a.regionID b.regionID ||
    (a.regionID == b.regionID && strLe a.date b.date)) l

/-- df.sort_values(Date) used when building region_cache and in fallbacks. -/
def sortByDate (l : List Row) : List Row :=
  sortBy (fun a b => strLe a.date b.date) l

/-- Python str(x) for an optional query parameter inside an f-string: an absent
parameter is the object None and prints as the four characters None. -/
def pyStr : Option String → String
  | none => "None"
  | some s => s

/-- Digits of a decimal literal, or none when some character is not a digit. -/
def digitsToNat : List Char → Option Nat
  | [] => none
  | cs =>
    if cs.all (·.isDigit) then
      some (cs.foldl (fun n c => n * 10 + (c.toNat - 48)) 0)
    else none

/-- ASCII whitespace stripped by Python int(). -/
def isPySpace (c : Char) : Bool :=
  c = ' ' || c = '\t' || c = '\n' || c = '\r' || c = '\x0b' || c = '\x0c'

/-- Strip leading and trailing whitespace from a character list. -/
def trimChars (cs : List Char) : List Char :=
  ((cs.dropWhile isPySpace).reverse.dropWhile isPySpace).reverse

/-- Python int(s) on a string: optional surrounding whitespace, an optional
sign, then a nonempty digit run; anything else raises ValueError, modelled as
none.  (Underscore digit grouping and non-ASCII digits are not modelled; no
claim uses them.) -/
def pyInt (s : String) : Option Int :=
  match trimChars s.toList with
  | [] => none
  | c :: rest =>
    if c = '-' then (digitsToNat rest).map (fun n => -(n : Int))
    else if c = '+' then (digitsToNat rest).map (fun n => (n : Int))
    else (digitsToNat (c :: rest)).map (fun n => (n : Int))

/-- Least-squares slope of np.polyfit(x, ys, 1) with x = 0, 1, ..., n-1. -/
def lsSlope (ys : List ℚ) : ℚ :=
  let xs : List ℚ := (List.range ys.length).map (fun i => (i : ℚ))
  let xbar := qmean xs
  let ybar := qmean ys
  let sxy := ((xs.zip ys).map (fun p => (p.1 - xbar) * (p.2 - ybar))).sum
  let sxx := (xs.map (fun x => (x - xbar) ^ 2)).sum
  sxy / sxx

/-- np.median: sort, take the middle element, or the mean of the two middles. -/
def qmedian (l : List ℚ) : ℚ :=
  let s := l.insertionSort (· ≤ ·)
  let n := s.length
  if n % 2 = 1 then s.getD (n / 2) 0
  else (s.getD (n / 2 - 1) 0 + s.getD (n / 2) 0) / 2

/-- np.min of a nonempty vector; 0 on the empty list (unreached: the handler
returns 404 first). -/
def qmin : List ℚ → ℚ
  | [] => 0
  | h :: t => t.foldl min h

/-- np.max of a nonempty vector; 0 on the empty list (unreached). -/
def qmax : List ℚ → ℚ
  | [] => 0
  | h :: t => t.foldl max h

/-- np.percentile(prices, 90) with the default linear interpolation. -/
def qpercentile90 (l : List ℚ) : ℚ :=
  let s := l.insertionSort (· ≤ ·)
  let n := s.length
  if n = 0 then 0 else
  let h : ℚ := 9 * ((n : ℚ) - 1) / 10
  let lo : Nat := h.floor.toNat
  let frac : ℚ := h - (lo : ℚ)
  if lo + 1 < n then s.getD lo 0 + frac * (s.getD (lo + 1) 0 - s.getD lo 0)
  else s.getD (n - 1) 0

/-- Two-digit zero padding of strftime. -/
def pad2 (n : Nat) : String := if n < 10 then "0" ++ toString n else toString n

/-- last_date + pd.DateOffset(months=k), then strftime(%Y-%m-%d), on an ISO
date string: year/month arithmetic with the day component kept verbatim (the
end-of-month day clamping of DateOffset is not modelled; no claim depends on
the day digits, only on how many future dates are generated). -/
def addMonths (d : String) (k : Nat) : String :=
  let y := (d.take 4).toNat?.getD 0
  let m := ((d.drop 5).take 2).toNat?.getD 1
  let rest := d.drop 7
  let t := y * 12 + (m - 1) + k
  toString (t / 12) ++ "-" ++ pad2 (t % 12 + 1) ++ rest

/-- HTTP outcome of one handler call: a jsonify response with a payload, a
jsonify error envelope with a status code and message, or an exception that
escapes the handler (Flask then produces a generic 500 with no JSON body). -/
inductive HResp (α : Type) where
  | json : Nat → α → HResp α
  | errJson : Nat → String → HResp α
  | uncaught : String → HResp α
deriving DecidableEq, Repr

/-- HTTP status code of a handler outcome; an uncaught exception surfaces as
the framework generic 500. -/
def statusOf {α : Type} : HResp α → Nat
  | .json c _ => c
  | .errJson c _ => c
  | .uncaught _ => 500

/-- The error message field of the JSON error envelope, empty otherwise. -/
def errMsgOf {α : Type} : HResp α → String
  | .errJson _ m => m
  | _ => ""

/-- Payload of the /api/prices response dict. -/
structure PricesResult where
  region_name : String
  region_type : String
  state_name : String
  dates : List String
  prices : List ℚ
deriving DecidableEq, Repr

/-- Payload of the /api/predict response dict; the confidence_intervals key is
present only when include_confidence was requested. -/
structure ForecastResult where
  region_id : String
  region_name : String
  state_name : String
  dates : List String
  predictions : List ℚ
  confidence_intervals : Option (List (ℝ × ℝ))

/-- Payload of the /api/statistics response dict.  Fields that the source
computes by field arithmetic alone are rationals; np.std and the skewness that
divides by its cube live in ℝ. -/
structure Stats where
  mean : ℚ
  median : ℚ
  stdDev : ℝ
  min : ℚ
  max : ℚ
  percentile90 : ℚ
  skewness : ℝ

/-- Payload of the /api/region/region_id response dict. -/
structure RegionDetails where
  region_id : String
  region_name : String
  region_type : String
  state_name : String
  size_rank : Int
deriving DecidableEq

/-- Payload of the /api/health response dict. -/
structure Health where
  status : String
  data_loaded : Bool
  model_loaded : Bool
deriving DecidableEq

/-- The module-level mutable state of app.py: the data frame, the loaded
model (opaque — only its presence matters), the four cache dicts and the
cache timestamp.  prices_cache models the get_prices.cache attribute, whose
entries carry the time.time() of their creation. -/
structure ServerState where
  data : Option (List Row)
  model : Option Unit
  region_cache : List (String × List Row)
  prediction_cache : List ((String × Int × Bool) × ForecastResult)
  statistics_cache : List (String × Stats)
  prices_cache : List (String × PricesResult × ℚ)
  cache_timestamp : ℚ

/-- Interpreter start-up state: data = None, model = None, empty caches. -/
def initState : ServerState :=
  { data := none, model := none, region_cache := [], prediction_cache := []
    statistics_cache := [], prices_cache := [], cache_timestamp := 0 }

/-- load_data (app.py lines 42-102), from the point where the normalized
long-format frame exists (the CSV read, melt and missing-value fill above
line 70 are the ingestion input contract; rows is that frame): sorts by
(RegionID, Date), stores it, records the cache timestamp, rebuilds
region_cache entries for every region of the new data (existing entries for
other regions are left in place, as dict assignment does), and clears the
prediction and statistics caches.  The get_prices.cache attribute is not
touched by load_data. -/
def load_data (st : ServerState) (rows : List Row) (now : ℚ) : ServerState :=
  let d := sortByRegionDate rows
  { st with
    data := some d
    cache_timestamp := now
    region_cache :=
      ((d.map (·.regionID)).dedup).map
        (fun rid => (rid, sortByDate (d.filter (fun r => r.regionID == rid))))
      ++ st.region_cache
    prediction_cache := []
    statistics_cache := [] }

/-- Cache key of get_prices (line 230): the f-string
prices_{region_id}_{start_date}_{end_date}. -/
def priceKey (rid : String) (sd ed : Option String) : String :=
  "prices_" ++ rid ++ "_" ++ pyStr sd ++ "_" ++ pyStr ed

/-- Cache key of get_statistics (line 436): the f-string
{region_id}_{start_date}_{end_date}. -/
def statsKey (rid : String) (sd ed : Option String) : String :=
  rid ++ "_" ++ pyStr sd ++ "_" ++ pyStr ed

/-- Region rows used by get_prices and predict_prices (lines 240-245 and
293-298): the precomputed region_cache entry if present, else a date-sorted
filter of the frame. -/
def regionRowsSorted (st : ServerState) (d : List Row) (rid : String) : List Row :=
  match alookup rid st.region_cache with
  | some rows => rows
  | none => sortByDate (d.filter (fun r => r.regionID == rid))

/-- Number of days in a calendar month under the Gregorian leap rule. -/
def daysInMonth (y m : Nat) : Nat :=
  if m = 2 then (if (y % 4 == 0 && y % 100 != 0) || y % 400 == 0 then 29 else 28)
  else if m == 4 || m == 6 || m == 9 || m == 11 then 30 else 31

/-- Shape and calendar check for a date string the pandas comparison can
coerce to a timestamp: exactly YYYY-MM-DD with a valid month and day.  pandas
accepts some further formats, none of which any request in this development
uses; a string failing the coercion makes the comparison raise a TypeError. -/
def validDateStr (s : String) : Bool :=
  match s.toList with
  | [y1, y2, y3, y4, h1, m1, m2, h2, d1, d2] =>
    (h1 == '-') && (h2 == '-') &&
    ([y1, y2, y3, y4, m1, m2, d1, d2].all (·.isDigit)) &&
    (let y := ((y1.toNat - 48) * 10 + (y2.toNat - 48)) * 100 +
              ((y3.toNat - 48) * 10 + (y4.toNat - 48))
     let m := (m1.toNat - 48) * 10 + (m2.toNat - 48)
     let d := (d1.toNat - 48) * 10 + (d2.toNat - 48)
     decide (1 ≤ m) && decide (m ≤ 12) && decide (1 ≤ d) &&
       decide (d ≤ daysInMonth y m))
  | _ => false

/-- An optional date parameter the handlers can filter by without raising:
absent, or a date string the timestamp coercion accepts. -/
def dateParamOk : Option String → Bool
  | none => true
  | some s => validDateStr s

/-- The str(e) text of the pandas TypeError raised when the datetime column
is compared with an unparseable string (abbreviated to its fixed prefix; the
handlers interpolate it into their 500 envelope). -/
def dateTypeErrorMsg : String :=
  "Invalid comparison between dtype=datetime64[ns] and str"

/-- filtered_data[Date] greater-or-equal start_date (lines 248-249, 450-451):
the coerced lower-bound filter, or the TypeError when the string does not
parse — raised even when the frame is empty. -/
def filterFrom (rows : List Row) : Option String → Except String (List Row)
  | none => .ok rows
  | some sdv =>
    if validDateStr sdv then .ok (rows.filter (fun r => strLe sdv r.date))
    else .error dateTypeErrorMsg

/-- filtered_data[Date] less-or-equal end_date (lines 250-251, 452-453). -/
def filterTo (rows : List Row) : Option String → Except String (List Row)
  | none => .ok rows
  | some edv =>
    if validDateStr edv then .ok (rows.filter (fun r => strLe r.date edv))
    else .error dateTypeErrorMsg

/-- Date-range filtering of lines 248-251 and 450-453: lower bound first,
then upper bound; the first failing coercion aborts with the TypeError, which
the surrounding try of each handler converts to its 500 envelope. -/
def filterDates (rows : List Row) (sd ed : Option String) :
    Except String (List Row) :=
  match filterFrom rows sd with
  | .error e => .error e
  | .ok f1 => filterTo f1 ed

/-- The /api/prices payload built from the filtered frame (lines 253-259). -/
def pricesResultOf (f : List Row) : PricesResult :=
  { region_name := ((f.head?).map (·.regionName)).getD ""
    region_type := ((f.head?).map (·.regionType)).getD ""
    state_name := ((f.head?).map (·.stateName)).getD ""
    dates := f.map (·.date)
    prices := f.map (·.price) }

/-- get_prices (lines 216-268).  The cached entry is served only while
now - timestamp < 3600; otherwise the result is recomputed and restored with
the current time.  An unknown region yields a 200 with empty fields, since the
handler never checks emptiness; a date parameter the timestamp coercion
rejects raises inside the try and yields the 500 envelope of line 268. -/
def get_prices (st : ServerState) (region_id sd ed : Option String) (now : ℚ) :
    HResp PricesResult × ServerState :=
  match st.data with
  | none => (.errJson 500 "Data not loaded", st)
  | some d =>
    match region_id with
    | none => (.errJson 400 "region_id is required", st)
    | some rid =>
      let key := priceKey rid sd ed
      match alookup key st.prices_cache with
      | some (res, ts) =>
        if now - ts < 3600 then (.json 200 res, st)
        else
          match filterDates (regionRowsSorted st d rid) sd ed with
          | .error e => (.errJson 500 ("Error processing data: " ++ e), st)
          | .ok f =>
            let fresh := pricesResultOf f
            (.json 200 fresh,
             { st with prices_cache := (key, fresh, now) :: st.prices_cache })
      | none =>
        match filterDates (regionRowsSorted st d rid) sd ed with
        | .error e => (.errJson 500 ("Error processing data: " ++ e), st)
        | .ok f =>
          let fresh := pricesResultOf f
          (.json 200 fresh,
           { st with prices_cache := (key, fresh, now) :: st.prices_cache })

/-- months_ahead = max(1, min(months_ahead, 12)) (line 281). -/
def clampMonths (m : Int) : Int := max 1 (min m 12)

/-- ASCII lowercasing of one character. -/
def toLowerChar (c : Char) : Char :=
  if 'A' ≤ c ∧ c ≤ 'Z' then Char.ofNat (c.toNat + 32) else c

/-- Python str.lower() (ASCII range; the flag values compared here are ASCII). -/
def strToLower (s : String) : String := ⟨s.toList.map toLowerChar⟩

/-- request.args.get(include_confidence, false).lower() == true (line 282). -/
def incOf (raw : Option String) : Bool := strToLower (raw.getD "false") == "true"

/-- The price column of the region frame. -/
def pricesOf (rd : List Row) : List ℚ := rd.map (·.price)

/-- latest_year = values[-12:] (line 304; the fallback of line 307 is the same
list when fewer than 12 rows exist). -/
def latestYear (rd : List Row) : List ℚ := takeLast 12 (pricesOf rd)

/-- avg_price = np.mean(latest_year) (line 310). -/
def avgPrice (rd : List Row) : ℚ := qmean (latestYear rd)

/-- avg_6m = np.mean(values[-6:]) (lines 314, 316). -/
def avg6m (rd : List Row) : ℚ := qmean (takeLast 6 (pricesOf rd))

/-- avg_3m = np.mean(values[-3:]) (lines 315, 317). -/
def avg3m (rd : List Row) : ℚ := qmean (takeLast 3 (pricesOf rd))

/-- trend_coef (lines 320-328): normalized least-squares slope of the trailing
year as a percentage, clamped to [-1, 1]; 0 when fewer than two points. -/
def trendCoef (rd : List Row) : ℚ :=
  if 2 ≤ (latestYear rd).length then
    max (min (lsSlope (latestYear rd) / avgPrice rd * 100) 1) (-1)
  else 0

/-- last_price = values[-1] (line 331). -/
def lastPrice (rd : List Row) : ℚ := (pricesOf rd).getLastD 0

/-- weighted_avg = avg_3m * 0.4 + avg_6m * 0.3 + avg_price * 0.3 (line 334). -/
def weightedAvg (rd : List Row) : ℚ :=
  avg3m rd * 0.4 + avg6m rd * 0.3 + avgPrice rd * 0.3

/-- micro_trend = trend_coef * 0.1 (line 348). -/
def microTrend (rd : List Row) : ℚ := trendCoef rd * 0.1

/-- predicted_price before blending (line 352): weighted average plus the
drawn perturbation plus the micro-trend contribution.  The draws of
np.random.normal are an oracle rnd, one rational per step. -/
def computedValue (weighted_avg micro_trend : ℚ) (rnd : Nat → ℚ) (i : Nat) : ℚ :=
  weighted_avg + rnd i + micro_trend * (i : ℚ) * weighted_avg * 0.01

/-- The blending of lines 355-363 toward the last actual price. -/
def blendActual (last_price : ℚ) (i : Nat) (c : ℚ) : ℚ :=
  if i = 0 then last_price * 0.7 + c * 0.3
  else if i = 1 then last_price * 0.4 + c * 0.6
  else if i = 2 then last_price * 0.2 + c * 0.8
  else c

/-- The prediction emitted at step i of the loop (lines 350-365). -/
def predStep (rd : List Row) (rnd : Nat → ℚ) (i : Nat) : ℚ :=
  blendActual (lastPrice rd) i (computedValue (weightedAvg rd) (microTrend rd) rnd i)

/-- The predictions list accumulated by the loop for a horizon of m steps. -/
def forecastPredictions (rd : List Row) (m : Nat) (rnd : Nat → ℚ) : List ℚ :=
  (List.range m).map (predStep rd rnd)

/-- std_dev = np.std(latest_year) (line 311), only used for the confidence
band. -/
noncomputable def forecastStdDev (rd : List Row) : ℝ :=
  Real.sqrt (qvariance (latestYear rd))

/-- Confidence intervals of lines 372-381: half-width std_dev * (1 + 0.3 i),
lower bound floored at 85 percent of the prediction. -/
noncomputable def forecastCI (rd : List Row) (m : Nat) (rnd : Nat → ℚ) :
    List (ℝ × ℝ) :=
  (List.range m).map (fun i =>
    let p : ℝ := (predStep rd rnd i : ℚ)
    let w : ℝ := forecastStdDev rd * (1 + (i : ℝ) * 0.3)
    (max (p - w) (p * 0.85), p + w))

/-- The /api/predict result dict of lines 384-393 for a nonempty region frame
rd, clamped horizon m and the given flags. -/
noncomputable def computeForecast (rd : List Row) (rid : String) (m : Nat)
    (inc : Bool) (rnd : Nat → ℚ) : ForecastResult :=
  { region_id := rid
    region_name := ((rd.head?).map (·.regionName)).getD ""
    state_name := ((rd.head?).map (·.stateName)).getD ""
    dates := (List.range m).map (fun i => addMonths ((rd.map (·.date)).getLastD "") (i + 1))
    predictions := forecastPredictions rd m rnd
    confidence_intervals := if inc then some (forecastCI rd m rnd) else none }

/-- predict_prices (lines 270-400).  months_ahead is parsed with int() at line
279, before the try block: a non-integer string raises an uncaught ValueError.
The prediction cache is consulted before anything else and carries no
timestamp, so now is never read.  The loaded model is never consulted either.
The random draws of line 345 are the oracle rnd. -/
noncomputable def predict_prices (st : ServerState)
    (region_id months_raw inc_raw : Option String) (now : ℚ) (rnd : Nat → ℚ) :
    HResp ForecastResult × ServerState :=
  match st.data with
  | none => (.errJson 500 "Data not loaded", st)
  | some d =>
    match pyInt (months_raw.getD "5") with
    | none => (.uncaught "ValueError: invalid literal for int", st)
    | some m0 =>
      let m := clampMonths m0
      let inc := incOf inc_raw
      match region_id with
      | none => (.errJson 400 "region_id is required", st)
      | some rid =>
        match alookup (rid, m, inc) st.prediction_cache with
        | some res => (.json 200 res, st)
        | none =>
          let region_data := regionRowsSorted st d rid
          if region_data.isEmpty then
            (.errJson 404 ("No data found for region " ++ rid), st)
          else
            let res := computeForecast region_data rid m.toNat inc rnd
            (.json 200 res,
             { st with prediction_cache := ((rid, m, inc), res) :: st.prediction_cache })

/-- The stats dict of lines 462-470. -/
noncomputable def computeStats (prices : List ℚ) : Stats :=
  { mean := qmean prices
    median := qmedian prices
    stdDev := Real.sqrt (qvariance prices)
    min := qmin prices
    max := qmax prices
    percentile90 := qpercentile90 prices
    skewness :=
      (qmean (prices.map (fun x => (x - qmean prices) ^ 3)) : ℝ) /
        Real.sqrt (qvariance prices) ^ 3 }

/-- get_statistics (lines 422-477).  The cache carries no timestamp and is
checked before any computation, so now is never read.  The fallback region
query of line 447 does not sort.  A date parameter the timestamp coercion
rejects raises inside the try and yields the 500 envelope of line 477. -/
noncomputable def get_statistics (st : ServerState) (region_id sd ed : Option String)
    (now : ℚ) : HResp Stats × ServerState :=
  match st.data with
  | none => (.errJson 500 "Data not loaded", st)
  | some d =>
    match region_id with
    | none => (.errJson 400 "region_id is required", st)
    | some rid =>
      let key := statsKey rid sd ed
      match alookup key st.statistics_cache with
      | some v => (.json 200 v, st)
      | none =>
        let base := match alookup rid st.region_cache with
          | some rows => rows
          | none => d.filter (fun r => r.regionID == rid)
        match filterDates base sd ed with
        | .error e => (.errJson 500 ("Error calculating statistics: " ++ e), st)
        | .ok f =>
          let prices := f.map (·.price)
          if prices.isEmpty then
            (.errJson 404 "No data available for the specified parameters", st)
          else
            let stats := computeStats prices
            (.json 200 stats,
             { st with statistics_cache := (key, stats) :: st.statistics_cache })

/-- get_region_details (lines 402-419): iloc[0:1] of the frame filtered to the
region, 404 when empty. -/
def get_region_details (st : ServerState) (region_id : String) :
    HResp RegionDetails × ServerState :=
  match st.data with
  | none => (.errJson 500 "Data not loaded", st)
  | some d =>
    match (d.filter (fun r => r.regionID == region_id)).head? with
    | none => (.errJson 404 ("Region " ++ region_id ++ " not found"), st)
    | some r =>
      (.json 200
        { region_id := region_id, region_name := r.regionName
          region_type := r.regionType, state_name := r.stateName
          size_rank := r.sizeRank }, st)

/-- health_check (lines 189-196). -/
def health_check (st : ServerState) : HResp Health :=
  .json 200 { status := "ok", data_loaded := st.data.isSome, model_loaded := st.model.isSome }

/-- Sample rows: one region r1 with three monthly prices 100, 200, 300. -/
def row1 : Row :=
  { regionID := "r1", sizeRank := 7, regionName := "Region One", regionType := "msa"
    stateName := "CA", date := "2024-01-31", price := 100 }

/-- Second sample month. -/
def row2 : Row := { row1 with date := "2024-02-29", price := 200 }

/-- Third sample month. -/
def row3 : Row := { row1 with date := "2024-03-31", price := 300 }

/-- The sample frame handed to load_data. -/
def sampleRows : List Row := [row1, row2, row3]

/-- Server state right after loading the sample frame at time 0 (model stays
None, as when load_model_ raised). -/
def s0 : ServerState := load_data initState sampleRows 0

/-- A constant-zero draw oracle. -/
def rndZero : Nat → ℚ := fun _ => 0

/-- A constant-one draw oracle. -/
def rndOne : Nat → ℚ := fun _ => 1

/-! Helper lemmas shared by the claim theorems. -/

theorem alookup_cons_self {κ ν : Type} [DecidableEq κ] (k : κ) (v : ν)
    (t : List (κ × ν)) : alookup k ((k, v) :: t) = some v := by
  simp [alookup]

theorem filterDates_none_none (rows : List Row) :
    filterDates rows none none = .ok rows := rfl

theorem filterDates_ok_nil (sd ed : Option String) (hsd : dateParamOk sd = true)
    (hed : dateParamOk ed = true) : filterDates [] sd ed = .ok [] := by
  cases sd <;> cases ed <;>
    simp_all [filterDates, filterFrom, filterTo, dateParamOk]

theorem filter_eq_nil_of_absent (d : List Row) (rid : String)
    (h : ∀ r ∈ d, r.regionID ≠ rid) :
    d.filter (fun r => r.regionID == rid) = [] := by
  rw [List.filter_eq_nil_iff]
  intro r hr
  simpa using h r hr

theorem regionRowsSorted_eq_nil (st : ServerState) (d : List Row) (rid : String)
    (hrc : alookup rid st.region_cache = none)
    (h : ∀ r ∈ d, r.regionID ≠ rid) :
    regionRowsSorted st d rid = [] := by
  simp [regionRowsSorted, hrc, filter_eq_nil_of_absent d rid h, sortByDate, sortBy]

theorem append_ne_empty_left (a b : String) (ha : a.length ≠ 0) : a ++ b ≠ "" := by
  intro h
  have hl := congrArg String.length h
  rw [String.length_append] at hl
  simp only [String.length_empty] at hl
  omega

theorem append_ne_empty_right (a b : String) (hb : b.length ≠ 0) : a ++ b ≠ "" := by
  intro h
  have hl := congrArg String.length h
  rw [String.length_append] at hl
  simp only [String.length_empty] at hl
  omega

/-! C9: underscore-joined statistics cache keys collide. -/

/-- A region whose identifier itself contains an underscore. -/
def rowAB : Row :=
  { regionID := "a_b", sizeRank := 3, regionName := "Ab City", regionType := "msa"
    stateName := "TX", date := "2023-05-31", price := 100 }

/-- State after loading the single-region frame for a_b at time 0. -/
def s9 : ServerState := load_data initState [rowAB] 0

/-- State after additionally serving statistics for region a_b with no date
bounds, which caches under the key a_b_None_None. -/
noncomputable def s9a : ServerState := (get_statistics s9 (some "a_b") none none 0).2

/-- C9: the statistics and price-slice cache keys underscore-join region_id,
start_date and end_date, and this is not injective: the distinct triples
(region_id a_b, no dates) and (region_id a, start_date b_None, no end) share
the key a_b_None_None, so the second request is served the cached statistics
computed for the first — the cache hit happens before any date parsing.  A
fresh computation of that second request does not even produce a result:
comparing the datetime column with the unparseable string b_None raises a
TypeError inside the try, served as the 500 envelope of line 477. -/
theorem statsKey_collision_serves_wrong_entry :
    statsKey "a_b" none none = statsKey "a" (some "b_None") none ∧
    (("a_b", (none : Option String), (none : Option String)) ≠
      ("a", some "b_None", (none : Option String))) ∧
    (get_statistics s9a (some "a") (some "b_None") none 0).1 =
      (get_statistics s9 (some "a_b") none none 0).1 ∧
    (get_statistics s9 (some "a") (some "b_None") none 0).1 =
      .errJson 500 ("Error calculating statistics: " ++ dateTypeErrorMsg) := by
  refine ⟨rfl, by decide, rfl, rfl⟩

/-! C10: months_ahead is parsed with int() before the try block. -/

/-- C10: for every request whose months_ahead value is a string int() rejects,
predict_prices raises an uncaught ValueError (the parse at line 279 sits
before the try of line 292), so the request yields the framework generic 500
and never the JSON error envelope a 4xx would carry, and no default horizon is
applied. -/
theorem predict_nonint_months_uncaught (st : ServerState) (d : List Row)
    (region_id inc_raw : Option String) (raw : String) (now : ℚ) (rnd : Nat → ℚ)
    (hd : st.data = some d) (hraw : pyInt raw = none) :
    (predict_prices st region_id (some raw) inc_raw now rnd).1 =
      .uncaught "ValueError: invalid literal for int" ∧
    statusOf (predict_prices st region_id (some raw) inc_raw now rnd).1 = 500 ∧
    ∀ c msg, (predict_prices st region_id (some raw) inc_raw now rnd).1 ≠
      .errJson c msg := by
  have h : (predict_prices st region_id (some raw) inc_raw now rnd).1 =
      .uncaught "ValueError: invalid literal for int" := by
    simp [predict_prices, hd, hraw]
  refine ⟨h, ?_, ?_⟩
  · rw [h]; rfl
  · intro c msg
    rw [h]
    intro hcontra
    exact HResp.noConfusion hcontra

/-- Witness for C10 at the concrete input months_ahead equal to abc on the
loaded sample state. -/
theorem predict_nonint_months_uncaught_witness :
    pyInt "abc" = none ∧
    (predict_prices s0 (some "r1") (some "abc") none 0 rndZero).1 =
      .uncaught "ValueError: invalid literal for int" ∧
    statusOf (predict_prices s0 (some "r1") (some "abc") none 0 rndZero).1 = 500 := by
  have h := predict_nonint_months_uncaught s0 (sortByRegionDate sampleRows)
    (some "r1") none "abc" 0 rndZero rfl (by decide)
  exact ⟨by decide, h.1, h.2.1⟩

/-! C3: responses to an unknown region_id. -/

/-- C3 counterexample: on the loaded sample state the region zz is unknown,
yet /api/prices answers 200 with empty fields instead of the 404 the claim
requires for every endpoint taking a region_id. -/
theorem prices_unknown_region_200 :
    (∀ r ∈ sortByRegionDate sampleRows, r.regionID ≠ "zz") ∧
    (get_prices s0 (some "zz") none none 0).1 =
      .json 200 { region_name := "", region_type := "", state_name := ""
                  dates := [], prices := [] } ∧
    statusOf (get_prices s0 (some "zz") none none 0).1 = 200 ∧
    statusOf (get_prices s0 (some "zz") none none 0).1 ≠ 404 := by
  exact ⟨by decide, by decide, rfl, by decide⟩

/-- C3 amended: for a region_id absent from the loaded data (and from the
region cache, with no stale derived-cache entry for the request, with date
parameters the timestamp coercion accepts), /api/predict, /api/region and
/api/statistics answer 404 with a non-empty error message and none of the
four endpoints answers 500; /api/prices however answers 200 with empty
strings and lists, not 404. -/
theorem unknown_region_responses (st : ServerState) (d : List Row) (rid : String)
    (sd ed mraw incraw : Option String) (m0 : Int) (now : ℚ) (rnd : Nat → ℚ)
    (hd : st.data = some d)
    (habsent : ∀ r ∈ d, r.regionID ≠ rid)
    (hrc : alookup rid st.region_cache = none)
    (hm : pyInt (mraw.getD "5") = some m0)
    (hpc : alookup (rid, clampMonths m0, incOf incraw) st.prediction_cache = none)
    (hsc : alookup (statsKey rid sd ed) st.statistics_cache = none)
    (hprc : alookup (priceKey rid sd ed) st.prices_cache = none)
    (hsd : dateParamOk sd = true)
    (hed : dateParamOk ed = true) :
    (predict_prices st (some rid) mraw incraw now rnd).1 =
      .errJson 404 ("No data found for region " ++ rid) ∧
    (get_region_details st rid).1 =
      .errJson 404 ("Region " ++ rid ++ " not found") ∧
    (get_statistics st (some rid) sd ed now).1 =
      .errJson 404 "No data available for the specified parameters" ∧
    (get_prices st (some rid) sd ed now).1 =
      .json 200 { region_name := "", region_type := "", state_name := ""
                  dates := [], prices := [] } ∧
    errMsgOf (predict_prices st (some rid) mraw incraw now rnd).1 ≠ "" ∧
    errMsgOf (get_region_details st rid).1 ≠ "" ∧
    errMsgOf (get_statistics st (some rid) sd ed now).1 ≠ "" ∧
    statusOf (predict_prices st (some rid) mraw incraw now rnd).1 ≠ 500 ∧
    statusOf (get_region_details st rid).1 ≠ 500 ∧
    statusOf (get_statistics st (some rid) sd ed now).1 ≠ 500 ∧
    statusOf (get_prices st (some rid) sd ed now).1 ≠ 500 := by
  have hfil := filter_eq_nil_of_absent d rid habsent
  have hrows := regionRowsSorted_eq_nil st d rid hrc habsent
  have hok := filterDates_ok_nil sd ed hsd hed
  have hpred : (predict_prices st (some rid) mraw incraw now rnd).1 =
      .errJson 404 ("No data found for region " ++ rid) := by
    simp [predict_prices, hd, hm, hpc, hrows]
  have hdet : (get_region_details st rid).1 =
      .errJson 404 ("Region " ++ rid ++ " not found") := by
    simp [get_region_details, hd, hfil]
  have hstat : (get_statistics st (some rid) sd ed now).1 =
      .errJson 404 "No data available for the specified parameters" := by
    simp [get_statistics, hd, hsc, hrc, hfil, hok]
  have hpri : (get_prices st (some rid) sd ed now).1 =
      .json 200 { region_name := "", region_type := "", state_name := ""
                  dates := [], prices := [] } := by
    simp [get_prices, hd, hprc, pricesResultOf, hrows, hok]
  refine ⟨hpred, hdet, hstat, hpri, ?_, ?_, ?_, ?_, ?_, ?_, ?_⟩
  · rw [hpred]
    exact append_ne_empty_left _ _ (by decide)
  · rw [hdet]
    exact append_ne_empty_right _ _ (by decide)
  · rw [hstat]; decide
  · rw [hpred]; simp [statusOf]
  · rw [hdet]; simp [statusOf]
  · rw [hstat]; decide
  · rw [hpri]; decide

/-- Witness for C3 at the unknown region zz on the loaded sample state. -/
theorem unknown_region_responses_witness :
    (∀ r ∈ sortByRegionDate sampleRows, r.regionID ≠ "zz") ∧
    (predict_prices s0 (some "zz") none none 0 rndZero).1 =
      .errJson 404 ("No data found for region " ++ "zz") ∧
    (get_region_details s0 "zz").1 =
      .errJson 404 ("Region " ++ "zz" ++ " not found") ∧
    (get_statistics s0 (some "zz") none none 0).1 =
      .errJson 404 "No data available for the specified parameters" ∧
    statusOf (get_prices s0 (some "zz") none none 0).1 ≠ 500 := by
  have h := unknown_region_responses s0 (sortByRegionDate sampleRows) "zz"
    none none none none 5 0 rndZero rfl (by decide) (by decide) (by decide)
    rfl rfl rfl rfl rfl
  exact ⟨by decide, h.1, h.2.1, h.2.2.1, h.2.2.2.2.2.2.2.2.2.2⟩

theorem get_prices_served_from_cache (st : ServerState) (d : List Row)
    (rid : String) (sd ed : Option String) (now : ℚ) (v : PricesResult) (ts : ℚ)
    (hd : st.data = some d)
    (hv : alookup (priceKey rid sd ed) st.prices_cache = some (v, ts))
    (hfresh : now - ts < 3600) :
    get_prices st (some rid) sd ed now = (.json 200 v, st) := by
  simp [get_prices, hd, hv, hfresh]

theorem get_prices_fresh_compute (st : ServerState) (d : List Row)
    (rid : String) (sd ed : Option String) (now : ℚ) (f : List Row)
    (hd : st.data = some d)
    (hmiss : alookup (priceKey rid sd ed) st.prices_cache = none)
    (hfil : filterDates (regionRowsSorted st d rid) sd ed = .ok f) :
    get_prices st (some rid) sd ed now =
      (.json 200 (pricesResultOf f),
       { st with prices_cache :=
          (priceKey rid sd ed, pricesResultOf f, now) :: st.prices_cache }) := by
  simp [get_prices, hd, hmiss, hfil]

/-! C1: what a full data reload invalidates. -/

/-- State after serving one price-slice request on the freshly loaded sample
data; the result sits in the get_prices cache with timestamp 0. -/
def c1Cached : ServerState := (get_prices s0 (some "r1") none none 0).2

/-- Replacement frame for the second load: region r1 now has one price 150. -/
def rowNew : Row := { row1 with price := 150 }

/-- State after the full reload at time 10 following the cached request. -/
def c1Reloaded : ServerState := load_data c1Cached [rowNew] 10

/-- The price-slice payload cached before the reload. -/
def c1Value : PricesResult :=
  { region_name := "Region One", region_type := "msa", state_name := "CA"
    dates := ["2024-01-31", "2024-02-29", "2024-03-31"]
    prices := [100, 200, 300] }

/-- C1 counterexample: after a full reload that changes the prices of region
r1, the next /api/prices access is served the price-slice entry cached before
the reload (prices 100, 200, 300), not a recomputation from the new data
(price 150): load_data never clears the get_prices cache. -/
theorem reload_serves_stale_price_slice :
    (get_prices c1Reloaded (some "r1") none none 20).1 =
      (get_prices s0 (some "r1") none none 0).1 ∧
    (get_prices c1Reloaded (some "r1") none none 20).1 ≠
      (get_prices { c1Reloaded with prices_cache := [] } (some "r1") none none 20).1 := by
  have hstale := get_prices_served_from_cache c1Reloaded (sortByRegionDate [rowNew])
    "r1" none none 20 c1Value 0 rfl rfl (by norm_num)
  have hfresh0 := get_prices_fresh_compute s0 (sortByRegionDate sampleRows)
    "r1" none none 0
    (regionRowsSorted s0 (sortByRegionDate sampleRows) "r1") rfl rfl rfl
  have hfresh2 := get_prices_fresh_compute { c1Reloaded with prices_cache := [] }
    (sortByRegionDate [rowNew]) "r1" none none 20
    (regionRowsSorted { c1Reloaded with prices_cache := [] }
      (sortByRegionDate [rowNew]) "r1") rfl rfl rfl
  have e1 : (get_prices c1Reloaded (some "r1") none none 20).1 = .json 200 c1Value := by
    rw [hstale]
  constructor
  · rw [e1, hfresh0]
    rfl
  · rw [e1, hfresh2]
    decide

/-- C1 amended: load_data clears the forecast and statistics caches, so every
previously cached forecast or statistics key is recomputed on its next access;
the price-slice cache of get_prices is left untouched, and an entry stored
before the reload whose age is below the TTL is served stale on the next
identical request. -/
theorem reload_invalidates_derived_caches (st : ServerState) (rows : List Row)
    (t : ℚ) (rid : String) (sd ed : Option String) (v : PricesResult) (ts now : ℚ)
    (hv : alookup (priceKey rid sd ed) st.prices_cache = some (v, ts))
    (hfresh : now - ts < 3600) :
    (load_data st rows t).prediction_cache = [] ∧
    (load_data st rows t).statistics_cache = [] ∧
    (∀ k, alookup k (load_data st rows t).prediction_cache =
      (none : Option ForecastResult)) ∧
    (∀ k, alookup k (load_data st rows t).statistics_cache =
      (none : Option Stats)) ∧
    (load_data st rows t).prices_cache = st.prices_cache ∧
    (get_prices (load_data st rows t) (some rid) sd ed now).1 = .json 200 v := by
  refine ⟨rfl, rfl, fun k => rfl, fun k => rfl, rfl, ?_⟩
  simp [get_prices, load_data, hv, hfresh]

/-- Witness for C1 on the concrete reloaded sample state: the stale slice
with prices 100, 200, 300 is served after the reload. -/
theorem reload_invalidates_derived_caches_witness :
    alookup (priceKey "r1" none none) c1Cached.prices_cache = some (c1Value, 0) ∧
    ((20 : ℚ) - 0 < 3600) ∧
    (load_data c1Cached [rowNew] 10).prediction_cache = [] ∧
    (get_prices (load_data c1Cached [rowNew] 10) (some "r1") none none 20).1 =
      .json 200 c1Value := by
  have h := reload_invalidates_derived_caches c1Cached [rowNew] 10 "r1" none none
    c1Value 0 20 rfl (by norm_num)
  exact ⟨rfl, by norm_num, h.1, h.2.2.2.2.2⟩

theorem get_prices_stale_recompute (st : ServerState) (d : List Row)
    (rid : String) (sd ed : Option String) (now : ℚ) (v : PricesResult) (ts : ℚ)
    (f : List Row)
    (hd : st.data = some d)
    (hv : alookup (priceKey rid sd ed) st.prices_cache = some (v, ts))
    (hstale : ¬(now - ts < 3600))
    (hfil : filterDates (regionRowsSorted st d rid) sd ed = .ok f) :
    get_prices st (some rid) sd ed now =
      (.json 200 (pricesResultOf f),
       { st with prices_cache :=
          (priceKey rid sd ed, pricesResultOf f, now) :: st.prices_cache }) := by
  simp [get_prices, hd, hv, hstale, hfil]

theorem predict_served_from_cache (st : ServerState) (d : List Row)
    (rid : String) (mraw incraw : Option String) (m0 : Int) (now : ℚ)
    (rnd : Nat → ℚ) (res : ForecastResult)
    (hd : st.data = some d)
    (hm : pyInt (mraw.getD "5") = some m0)
    (hf : alookup (rid, clampMonths m0, incOf incraw) st.prediction_cache = some res) :
    predict_prices st (some rid) mraw incraw now rnd = (.json 200 res, st) := by
  simp [predict_prices, hd, hm, hf]

theorem predict_fresh_compute (st : ServerState) (d : List Row)
    (rid : String) (mraw incraw : Option String) (m0 : Int) (now : ℚ)
    (rnd : Nat → ℚ)
    (hd : st.data = some d)
    (hm : pyInt (mraw.getD "5") = some m0)
    (hf : alookup (rid, clampMonths m0, incOf incraw) st.prediction_cache = none)
    (hne : regionRowsSorted st d rid ≠ []) :
    predict_prices st (some rid) mraw incraw now rnd =
      (.json 200 (computeForecast (regionRowsSorted st d rid) rid
        (clampMonths m0).toNat (incOf incraw) rnd),
       { st with prediction_cache :=
          ((rid, clampMonths m0, incOf incraw),
           computeForecast (regionRowsSorted st d rid) rid
             (clampMonths m0).toNat (incOf incraw) rnd) :: st.prediction_cache }) := by
  have hne' : (regionRowsSorted st d rid).isEmpty = false := by
    cases hrr : regionRowsSorted st d rid with
    | nil => exact absurd hrr hne
    | cons a t => rfl
  simp [predict_prices, hd, hm, hf, hne']

theorem statistics_served_from_cache (st : ServerState) (d : List Row)
    (rid : String) (sd ed : Option String) (now : ℚ) (v : Stats)
    (hd : st.data = some d)
    (hv : alookup (statsKey rid sd ed) st.statistics_cache = some v) :
    get_statistics st (some rid) sd ed now = (.json 200 v, st) := by
  simp [get_statistics, hd, hv]

/-! C2: which caches enforce the TTL. -/

/-- State after one forecast request at time 0 with the zero draw oracle; the
result is cached without any timestamp. -/
noncomputable def c2Cached : ServerState :=
  (predict_prices s0 (some "r1") none none 0 rndZero).2

/-- The forecast result computed and cached by that first request. -/
noncomputable def c2res : ForecastResult :=
  computeForecast (regionRowsSorted s0 (sortByRegionDate sampleRows) "r1") "r1"
    (clampMonths 5).toNat (incOf none) rndZero

/-- Projection to the predictions of a successful forecast response. -/
def respPredictions : HResp ForecastResult → List ℚ
  | .json _ r => r.predictions
  | _ => []

/-- Any forecast prediction at step 0 changes when the drawn perturbation
changes from 0 to 1, whatever the region frame. -/
theorem predStep_zero_ne (rd : List Row) :
    predStep rd rndZero 0 ≠ predStep rd rndOne 0 := by
  intro h
  simp only [predStep, blendActual, computedValue, rndZero, rndOne,
    if_pos rfl] at h
  push_cast at h
  linarith

/-- C2 counterexample: the forecast cached at time 0 is served unchanged at
time 1000000, far past the one-hour TTL, even though a recomputation (shown on
the cache-cleared state with a different draw oracle) yields different
predictions: the prediction cache stores no timestamp and never expires. -/
theorem forecast_cache_has_no_ttl :
    (predict_prices c2Cached (some "r1") none none 1000000 rndOne).1 =
      (predict_prices s0 (some "r1") none none 0 rndZero).1 ∧
    respPredictions (predict_prices c2Cached (some "r1") none none 1000000 rndOne).1 ≠
      respPredictions (predict_prices { c2Cached with prediction_cache := [] }
        (some "r1") none none 1000000 rndOne).1 := by
  have hfirst := predict_fresh_compute s0 (sortByRegionDate sampleRows) "r1"
    none none 5 0 rndZero rfl rfl rfl (by decide)
  have hC2 : c2Cached =
      { s0 with prediction_cache := [(("r1", clampMonths 5, incOf none), c2res)] } := by
    show (predict_prices s0 (some "r1") none none 0 rndZero).2 = _
    rw [hfirst]
    rfl
  have hd2 : c2Cached.data = some (sortByRegionDate sampleRows) := by rw [hC2]; rfl
  have hf2 : alookup ("r1", clampMonths 5, incOf none) c2Cached.prediction_cache =
      some c2res := by
    rw [hC2]
    exact alookup_cons_self _ _ _
  have hserve := predict_served_from_cache c2Cached (sortByRegionDate sampleRows)
    "r1" none none 5 1000000 rndOne c2res hd2 rfl hf2
  have hfresh2 := predict_fresh_compute { c2Cached with prediction_cache := [] }
    (sortByRegionDate sampleRows) "r1" none none 5 1000000 rndOne
    (by rw [hC2]; rfl) rfl rfl (by rw [hC2]; decide)
  constructor
  · rw [hserve, hfirst]
    rfl
  · rw [hserve, hfresh2]
    show (computeForecast _ _ _ _ rndZero).predictions ≠
      (computeForecast _ _ _ _ rndOne).predictions
    have hrows : regionRowsSorted { c2Cached with prediction_cache := [] }
        (sortByRegionDate sampleRows) "r1" =
        regionRowsSorted s0 (sortByRegionDate sampleRows) "r1" := by
      rw [hC2]
      rfl
    rw [hrows]
    show forecastPredictions _ 5 rndZero ≠ forecastPredictions _ 5 rndOne
    intro h
    have eF : ∀ rnd : Nat → ℚ,
        forecastPredictions (regionRowsSorted s0 (sortByRegionDate sampleRows) "r1")
          5 rnd =
        [predStep (regionRowsSorted s0 (sortByRegionDate sampleRows) "r1") rnd 0,
         predStep (regionRowsSorted s0 (sortByRegionDate sampleRows) "r1") rnd 1,
         predStep (regionRowsSorted s0 (sortByRegionDate sampleRows) "r1") rnd 2,
         predStep (regionRowsSorted s0 (sortByRegionDate sampleRows) "r1") rnd 3,
         predStep (regionRowsSorted s0 (sortByRegionDate sampleRows) "r1") rnd 4] :=
      fun _ => rfl
    rw [eF, eF] at h
    simp only [List.cons.injEq] at h
    exact predStep_zero_ne _ h.1

/-- C2 amended: only the price-slice cache of get_prices enforces the one-hour
TTL — a stored entry is served on a later identical request iff its age
now - created_at is below 3600 seconds, and is recomputed (and restored with
the current time) otherwise; forecast and statistics cache entries carry no
timestamp and are served on any later identical request, whatever the elapsed
time, until a reload clears them. -/
theorem ttl_only_on_price_slices (st : ServerState) (d : List Row) (rid : String)
    (sd ed mraw incraw : Option String) (m0 : Int) (now : ℚ)
    (v : PricesResult) (ts : ℚ) (rnd : Nat → ℚ) (fres : ForecastResult)
    (sres : Stats) (f : List Row)
    (hd : st.data = some d)
    (hv : alookup (priceKey rid sd ed) st.prices_cache = some (v, ts))
    (hm : pyInt (mraw.getD "5") = some m0)
    (hf : alookup (rid, clampMonths m0, incOf incraw) st.prediction_cache = some fres)
    (hs : alookup (statsKey rid sd ed) st.statistics_cache = some sres)
    (hfil : filterDates (regionRowsSorted st d rid) sd ed = .ok f) :
    ((now - ts < 3600) → (get_prices st (some rid) sd ed now).1 = .json 200 v) ∧
    (¬(now - ts < 3600) →
      (get_prices st (some rid) sd ed now).1 = .json 200 (pricesResultOf f) ∧
      (get_prices st (some rid) sd ed now).2.prices_cache =
        (priceKey rid sd ed, pricesResultOf f, now) :: st.prices_cache) ∧
    (predict_prices st (some rid) mraw incraw now rnd).1 = .json 200 fres ∧
    (get_statistics st (some rid) sd ed now).1 = .json 200 sres := by
  refine ⟨?_, ?_, ?_, ?_⟩
  · intro hfresh
    rw [get_prices_served_from_cache st d rid sd ed now v ts hd hv hfresh]
  · intro hstale
    rw [get_prices_stale_recompute st d rid sd ed now v ts f hd hv hstale hfil]
    exact ⟨rfl, rfl⟩
  · rw [predict_served_from_cache st d rid mraw incraw m0 now rnd fres hd hm hf]
  · rw [statistics_served_from_cache st d rid sd ed now sres hd hs]

/-- State with the price slice for region r1 cached at time 0. -/
def c2sA : ServerState := (get_prices s0 (some "r1") none none 0).2

/-- State with additionally the forecast for region r1 cached. -/
noncomputable def c2sB : ServerState :=
  (predict_prices c2sA (some "r1") none none 0 rndZero).2

/-- State with additionally the statistics for region r1 cached. -/
noncomputable def c2sC : ServerState :=
  (get_statistics c2sB (some "r1") none none 0).2

/-- The price-slice payload cached in that chain. -/
def c2pv : PricesResult :=
  pricesResultOf (regionRowsSorted s0 (sortByRegionDate sampleRows) "r1")

/-- The statistics payload cached in that chain. -/
noncomputable def c2stats : Stats := computeStats [100, 200, 300]

/-- Witness for C2 at time 999999, far past the TTL of every entry cached at
time 0: the price slice is recomputed, while the forecast and the statistics
are still served from the cache. -/
theorem ttl_only_on_price_slices_witness :
    alookup (priceKey "r1" none none) c2sC.prices_cache = some (c2pv, 0) ∧
    ¬((999999 : ℚ) - 0 < 3600) ∧
    (get_prices c2sC (some "r1") none none 999999).1 =
      .json 200 (pricesResultOf
        (regionRowsSorted c2sC (sortByRegionDate sampleRows) "r1")) ∧
    (predict_prices c2sC (some "r1") none none 999999 rndOne).1 = .json 200 c2res ∧
    (get_statistics c2sC (some "r1") none none 999999).1 = .json 200 c2stats := by
  have h := ttl_only_on_price_slices c2sC (sortByRegionDate sampleRows) "r1"
    none none none none 5 999999 c2pv 0 rndOne c2res c2stats
    (regionRowsSorted c2sC (sortByRegionDate sampleRows) "r1")
    rfl rfl rfl rfl rfl rfl
  have hstale : ¬((999999 : ℚ) - 0 < 3600) := by norm_num
  exact ⟨rfl, hstale, (h.2.1 hstale).1, h.2.2.1, h.2.2.2⟩

/-! C4: behavior when the model failed to load. -/

/-- C4 counterexample: on the loaded sample state the model is None, yet a
forecast request for the known region r1 succeeds with 200 and no error
envelope — predict_prices never consults the model, so no prediction
unavailable error exists. -/
theorem predict_succeeds_without_model :
    s0.model = none ∧ s0.data.isSome = true ∧
    statusOf (predict_prices s0 (some "r1") none none 0 rndZero).1 = 200 ∧
    ∀ c msg, (predict_prices s0 (some "r1") none none 0 rndZero).1 ≠
      .errJson c msg := by
  have h := predict_fresh_compute s0 (sortByRegionDate sampleRows) "r1"
    none none 5 0 rndZero rfl rfl rfl (by decide)
  refine ⟨rfl, rfl, ?_, ?_⟩
  · rw [h]
    rfl
  · intro c msg hc
    rw [h] at hc
    exact HResp.noConfusion hc

/-- C4 amended: when the model failed to load (model = None) but data is
loaded, every endpoint keeps working, including /api/predict: the forecast is
a pure statistical blend that never invokes the model, so its response is
identical under any model value and is a 200 success on a known nonempty
region, never an error envelope; /api/health reports model_loaded false. -/
theorem model_not_consulted (st : ServerState) (m' : Option Unit) (d : List Row)
    (rid : String) (mraw incraw : Option String) (m0 : Int) (now : ℚ)
    (rnd : Nat → ℚ)
    (hd : st.data = some d) (hmodel : st.model = none)
    (hm : pyInt (mraw.getD "5") = some m0)
    (hf : alookup (rid, clampMonths m0, incOf incraw) st.prediction_cache = none)
    (hne : regionRowsSorted st d rid ≠ []) :
    (predict_prices { st with model := m' } (some rid) mraw incraw now rnd).1 =
      (predict_prices st (some rid) mraw incraw now rnd).1 ∧
    (predict_prices st (some rid) mraw incraw now rnd).1 =
      .json 200 (computeForecast (regionRowsSorted st d rid) rid
        (clampMonths m0).toNat (incOf incraw) rnd) ∧
    health_check st = .json 200 { status := "ok", data_loaded := true
                                  model_loaded := false } ∧
    ∀ c msg, (predict_prices st (some rid) mraw incraw now rnd).1 ≠
      .errJson c msg := by
  have hB := predict_fresh_compute st d rid mraw incraw m0 now rnd hd hm hf hne
  have hA := predict_fresh_compute { st with model := m' } d rid mraw incraw m0
    now rnd hd hm hf hne
  refine ⟨?_, ?_, ?_, ?_⟩
  · rw [hA, hB]
    rfl
  · rw [hB]
  · simp [health_check, hd, hmodel]
  · intro c msg hc
    rw [hB] at hc
    exact HResp.noConfusion hc

/-- Witness for C4 on the loaded sample state with model None. -/
theorem model_not_consulted_witness :
    s0.model = none ∧
    (predict_prices { s0 with model := some () } (some "r1") none none 0 rndZero).1 =
      (predict_prices s0 (some "r1") none none 0 rndZero).1 ∧
    health_check s0 = .json 200 { status := "ok", data_loaded := true
                                  model_loaded := false } := by
  have h := model_not_consulted s0 (some ()) (sortByRegionDate sampleRows) "r1"
    none none 5 0 rndZero rfl rfl rfl rfl (by decide)
  exact ⟨rfl, h.1, h.2.2.1⟩

/-! C5: the forecast horizon clamp. -/

/-- C5: on a known nonempty region with no cached entry for the request, the
parsed months_ahead m0 is clamped to max 1 (min m0 12) and both the emitted
predictions and dates have exactly that length. -/
theorem horizon_clamped (st : ServerState) (d : List Row) (rid : String)
    (mraw incraw : Option String) (m0 : Int) (now : ℚ) (rnd : Nat → ℚ)
    (hd : st.data = some d)
    (hm : pyInt (mraw.getD "5") = some m0)
    (hf : alookup (rid, clampMonths m0, incOf incraw) st.prediction_cache = none)
    (hne : regionRowsSorted st d rid ≠ []) :
    (predict_prices st (some rid) mraw incraw now rnd).1 =
      .json 200 (computeForecast (regionRowsSorted st d rid) rid
        (clampMonths m0).toNat (incOf incraw) rnd) ∧
    (computeForecast (regionRowsSorted st d rid) rid (clampMonths m0).toNat
      (incOf incraw) rnd).predictions.length = (max 1 (min m0 12)).toNat ∧
    (computeForecast (regionRowsSorted st d rid) rid (clampMonths m0).toNat
      (incOf incraw) rnd).dates.length = (max 1 (min m0 12)).toNat := by
  refine ⟨?_, ?_, ?_⟩
  · rw [predict_fresh_compute st d rid mraw incraw m0 now rnd hd hm hf hne]
  · simp [computeForecast, forecastPredictions, clampMonths]
  · simp [computeForecast, clampMonths]

/-- Witness for C5 at the concrete horizons 0 and 20, which yield exactly 1
and 12 predictions on the sample region. -/
theorem horizon_clamped_witness :
    pyInt "0" = some 0 ∧
    (computeForecast (regionRowsSorted s0 (sortByRegionDate sampleRows) "r1")
      "r1" (clampMonths 0).toNat (incOf none) rndZero).predictions.length =
      (max 1 (min 0 12) : Int).toNat ∧
    pyInt "20" = some 20 ∧
    (computeForecast (regionRowsSorted s0 (sortByRegionDate sampleRows) "r1")
      "r1" (clampMonths 20).toNat (incOf none) rndZero).dates.length =
      (max 1 (min 20 12) : Int).toNat := by
  have h0 := horizon_clamped s0 (sortByRegionDate sampleRows) "r1" (some "0")
    none 0 0 rndZero rfl rfl rfl (by decide)
  have h20 := horizon_clamped s0 (sortByRegionDate sampleRows) "r1" (some "20")
    none 20 0 rndZero rfl rfl rfl (by decide)
  exact ⟨rfl, h0.2.1, rfl, h20.2.2⟩

/-! C6: the blending weights toward the last actual price. -/

/-- C6: with c_i the computed value of step i (weighted baseline plus drawn
perturbation plus micro-trend) and L the last known actual price, the emitted
prediction is 0.7 L + 0.3 c_0 at step 0, 0.4 L + 0.6 c_1 at step 1,
0.2 L + 0.8 c_2 at step 2 and exactly c_i from step 3 on; the weight on the
actual value strictly decreases 0.7 greater 0.4 greater 0.2 greater 0. -/
theorem blend_weights (rd : List Row) (m : Nat) (rnd : Nat → ℚ) (i : Nat)
    (hi : i < m) :
    (forecastPredictions rd m rnd).getD i 0 =
      (if i = 0 then
        0.7 * lastPrice rd + 0.3 * computedValue (weightedAvg rd) (microTrend rd) rnd 0
      else if i = 1 then
        0.4 * lastPrice rd + 0.6 * computedValue (weightedAvg rd) (microTrend rd) rnd 1
      else if i = 2 then
        0.2 * lastPrice rd + 0.8 * computedValue (weightedAvg rd) (microTrend rd) rnd 2
      else computedValue (weightedAvg rd) (microTrend rd) rnd i) ∧
    ((0.7 : ℚ) > 0.4 ∧ (0.4 : ℚ) > 0.2 ∧ (0.2 : ℚ) > 0) := by
  constructor
  · have hg : (forecastPredictions rd m rnd).getD i 0 = predStep rd rnd i := by
      simp [forecastPredictions, List.getD_eq_getElem?_getD, List.getElem?_map,
        List.getElem?_range, hi]
    rw [hg]
    simp only [predStep, blendActual]
    split_ifs with h0 h1 h2
    · subst h0; ring
    · subst h1; ring
    · subst h2; ring
    · rfl
  · norm_num

/-- Witness for C6 at step 4 of a 5-step forecast on the sample rows, which
falls in the pure computed-value regime. -/
theorem blend_weights_witness :
    (4 < 5) ∧
    ((forecastPredictions [row1, row2, row3] 5 rndZero).getD 4 0 =
      (if 4 = 0 then
        0.7 * lastPrice [row1, row2, row3] +
          0.3 * computedValue (weightedAvg [row1, row2, row3])
            (microTrend [row1, row2, row3]) rndZero 0
      else if 4 = 1 then
        0.4 * lastPrice [row1, row2, row3] +
          0.6 * computedValue (weightedAvg [row1, row2, row3])
            (microTrend [row1, row2, row3]) rndZero 1
      else if 4 = 2 then
        0.2 * lastPrice [row1, row2, row3] +
          0.8 * computedValue (weightedAvg [row1, row2, row3])
            (microTrend [row1, row2, row3]) rndZero 2
      else computedValue (weightedAvg [row1, row2, row3])
        (microTrend [row1, row2, row3]) rndZero 4)) := by
  exact ⟨by norm_num, (blend_weights [row1, row2, row3] 5 rndZero 4 (by norm_num)).1⟩

/-! C7: the statistics formulas and the concrete round trip. -/

/-- C7: for a nonempty price vector the served skewness is the third
standardized moment, the mean of cubed deviations divided by the cube of the
population standard deviation; concretely, /api/statistics on the sample
region with prices 100, 200, 300 serves mean 200, median 200, the standard
deviation sqrt of 20000/3 (between 81.64 and 81.66), min 100 and max 300. -/
theorem statistics_moments (v : List ℚ) (hv : v ≠ []) :
    (computeStats v).skewness =
      (qmean (v.map (fun x => (x - qmean v) ^ 3)) : ℝ) /
        Real.sqrt (qmean (v.map (fun x => (x - qmean v) ^ 2))) ^ 3 ∧
    (computeStats v).stdDev =
      Real.sqrt (qmean (v.map (fun x => (x - qmean v) ^ 2))) ∧
    (get_statistics s0 (some "r1") none none 0).1 =
      .json 200 (computeStats [100, 200, 300]) ∧
    (computeStats [100, 200, 300]).mean = 200 ∧
    (computeStats [100, 200, 300]).median = 200 ∧
    (computeStats [100, 200, 300]).stdDev = Real.sqrt (20000 / 3) ∧
    81.64 < (computeStats [100, 200, 300]).stdDev ∧
    (computeStats [100, 200, 300]).stdDev < 81.66 ∧
    (computeStats [100, 200, 300]).min = 100 ∧
    (computeStats [100, 200, 300]).max = 300 := by
  have hvar : qvariance [100, 200, 300] = 20000 / 3 := by
    norm_num [qvariance, qmean]
  have hsd : (computeStats [100, 200, 300]).stdDev = Real.sqrt (20000 / 3) := by
    show Real.sqrt (qvariance [100, 200, 300]) = _
    rw [hvar]
    norm_num
  refine ⟨rfl, rfl, rfl, ?_, ?_, hsd, ?_, ?_, ?_, ?_⟩
  · show qmean [100, 200, 300] = 200
    norm_num [qmean]
  · show qmedian [100, 200, 300] = 200
    norm_num [qmedian, List.insertionSort, List.orderedInsert]
  · rw [hsd]
    rw [show (81.64 : ℝ) = 81.64 from rfl]
    rw [Real.lt_sqrt (by norm_num)]
    norm_num
  · rw [hsd]
    rw [Real.sqrt_lt' (by norm_num)]
    norm_num
  · show qmin [100, 200, 300] = 100
    norm_num [qmin, List.foldl, min_def]
  · show qmax [100, 200, 300] = 300
    norm_num [qmax, List.foldl, max_def]

/-- Witness for C7 at the concrete vector 100, 200, 300. -/
theorem statistics_moments_witness :
    ([100, 200, 300] : List ℚ) ≠ [] ∧
    (computeStats [100, 200, 300]).mean = 200 ∧
    (computeStats [100, 200, 300]).skewness =
      (qmean (([100, 200, 300] : List ℚ).map
        (fun x => (x - qmean [100, 200, 300]) ^ 3)) : ℝ) /
        Real.sqrt (qmean (([100, 200, 300] : List ℚ).map
          (fun x => (x - qmean [100, 200, 300]) ^ 2))) ^ 3 := by
  have h := statistics_moments [100, 200, 300] (by simp)
  exact ⟨by simp, h.2.2.2.1, h.1⟩

/-! C8: consecutive identical forecast requests. -/

/-- C8: two consecutive identical forecast requests with no intervening reload
return identical responses whatever the draw oracles and clock readings: a
successful first request stores its result in the prediction cache and the
second request is served that entry, so the random perturbation is never drawn
again; on every error path the state is unchanged and the error repeats. -/
theorem forecast_idempotent (st : ServerState)
    (region_id mraw incraw : Option String) (now1 now2 : ℚ)
    (rnd1 rnd2 : Nat → ℚ) :
    (predict_prices (predict_prices st region_id mraw incraw now1 rnd1).2
        region_id mraw incraw now2 rnd2).1 =
      (predict_prices st region_id mraw incraw now1 rnd1).1 := by
  cases hd : st.data with
  | none =>
    have h1 : predict_prices st region_id mraw incraw now1 rnd1 =
        (.errJson 500 "Data not loaded", st) := by
      simp [predict_prices, hd]
    rw [h1]
    simp [predict_prices, hd]
  | some d =>
    cases hm : pyInt (mraw.getD "5") with
    | none =>
      have h1 : predict_prices st region_id mraw incraw now1 rnd1 =
          (.uncaught "ValueError: invalid literal for int", st) := by
        simp [predict_prices, hd, hm]
      rw [h1]
      simp [predict_prices, hd, hm]
    | some m0 =>
      cases region_id with
      | none =>
        have h1 : predict_prices st none mraw incraw now1 rnd1 =
            (.errJson 400 "region_id is required", st) := by
          simp [predict_prices, hd, hm]
        rw [h1]
        simp [predict_prices, hd, hm]
      | some rid =>
        cases hc : alookup (rid, clampMonths m0, incOf incraw) st.prediction_cache with
        | some res =>
          have h1 := predict_served_from_cache st d rid mraw incraw m0 now1 rnd1
            res hd hm hc
          rw [h1]
          rw [predict_served_from_cache st d rid mraw incraw m0 now2 rnd2
            res hd hm hc]
        | none =>
          by_cases hne : regionRowsSorted st d rid = []
          · have hemp : (regionRowsSorted st d rid).isEmpty = true := by
              rw [hne]; rfl
            have h1 : predict_prices st (some rid) mraw incraw now1 rnd1 =
                (.errJson 404 ("No data found for region " ++ rid), st) := by
              simp [predict_prices, hd, hm, hc, hemp]
            rw [h1]
            simp [predict_prices, hd, hm, hc, hemp]
          · have h1 := predict_fresh_compute st d rid mraw incraw m0 now1 rnd1
              hd hm hc hne
            rw [h1]
            rw [predict_served_from_cache
              { st with prediction_cache :=
                ((rid, clampMonths m0, incOf incraw),
                 computeForecast (regionRowsSorted st d rid) rid
                   (clampMonths m0).toNat (incOf incraw) rnd1) :: st.prediction_cache }
              d rid mraw incraw m0 now2 rnd2 _ hd hm (alookup_cons_self _ _ _)]

end HousingDashboard
